import Mathlib

/-
  Verification of the pipe-soil interaction (PSI) calculation backends.

  The repository holds three calculation backends:
  * `psi_backend.py`       — class `PSI_Undrained_Model` (surface-laid), embedded
                             below in namespace `PSIModel`;
  * `surfacelaid_psi_backend.py` — function `run_psi_analysis` (surface-laid),
                             embedded below in namespace `RunPSI`;
  * `trenched_psi_backend.py` — class `Trenched_PSI_Backend`, embedded below in
                             namespace `Trenched`.

  Python floating-point arithmetic is modelled by exact real arithmetic; the
  transcendental library calls (`math.sqrt`, `math.asin`, `math.acos`,
  `math.sin`, `math.cos`, float `**`) are modelled by the corresponding real
  functions (`Real.sqrt`, `Real.arcsin`, `Real.arccos`, `Real.sin`, `Real.cos`,
  `Real.rpow`), which agree with the Python semantics on the arguments'
  valid domains.  `math.sqrt` raises `ValueError` on a negative argument; where
  that exception behaviour itself is at issue we model the call by the
  `Option`-valued `pySqrt` below.  The final `round(x, 2)` display formatting
  that `PSI_Undrained_Model.run_simulation` applies when tabulating its rows is
  presentation and is not part of the embedded computations.
-/

noncomputable section

/-- The two coating surfaces iterated by the surface-laid backends
(`"Concrete"` and `"PET"`). -/
inductive Surface where
  | concrete
  | pet
deriving DecidableEq

/-- The three soil-parameter estimate tiers iterated by every backend:
index `j = 0` / `"P5"` (low), `j = 1` / `"P50"` (best), `j = 2` / `"P95"` (high). -/
inductive Est where
  | low
  | best
  | high
deriving DecidableEq

/-- The surface-laid input record: the constructor arguments of
`PSI_Undrained_Model.__init__` (where `gamma_bulk` is the `sub_wt_raw`
argument) together with the `inputs` dictionary fields of `run_psi_analysis`.
`su_passive` is read only by `run_psi_analysis`; `PSI_Undrained_Model` has no
such input.  `ssr` and `prem` collect the per-surface, per-estimate
coefficient pairs (the `ssr_conc`/`prem_conc`/`ssr_pet`/`prem_pet` lists of
`psi_backend.py`, the `f"{surf}_{est}_SSR"` / `..._Prem` keys of
`surfacelaid_psi_backend.py`). -/
structure SLIn where
  dop : ℝ
  tp : ℝ
  z : ℝ
  su : ℝ
  ocr : ℝ
  st : ℝ
  alpha : ℝ
  rate : ℝ
  gamma_bulk : ℝ
  su_passive : ℝ
  ssr : Surface → Est → ℝ
  prem : Surface → Est → ℝ

/-- `math.sqrt`: defined on nonnegative arguments, raises `ValueError`
(modelled as `none`) on negative ones. -/
def pySqrt (x : ℝ) : Option ℝ :=
  if 0 ≤ x then some (Real.sqrt x) else none

/-- The clamp `max(-1, min(1, x))` applied before `acos` in both surface-laid
backends. -/
def clampUnit (x : ℝ) : ℝ :=
  max (-1) (min 1 x)

/-- `beta = acos(clamped cos_val)` with `cos_val = 1 - z/(dop/2)`, as computed
identically at `psi_backend.py` lines 72–76 and `surfacelaid_psi_backend.py`
lines 62–64. -/
def betaCore (dop z : ℝ) : ℝ :=
  Real.arccos (clampUnit (1 - z / (dop / 2)))

/-- The denominator `beta + sin(beta)*cos(beta)` of the wedging factor
(the local variable `denom` of `surfacelaid_psi_backend.py` line 66). -/
def zetaDenom (dop z : ℝ) : ℝ :=
  betaCore dop z + Real.sin (betaCore dop z) * Real.cos (betaCore dop z)

/-- The wedging factor of `psi_backend.py` lines 79–82: guarded by
`beta == 0`. -/
def zetaPSICore (dop z : ℝ) : ℝ :=
  if betaCore dop z = 0 then 1
  else 2 * Real.sin (betaCore dop z) / zetaDenom dop z

/-- The wedging factor of `surfacelaid_psi_backend.py` line 67: guarded by
`denom != 0`. -/
def zetaSLCore (dop z : ℝ) : ℝ :=
  if zetaDenom dop z = 0 then 1
  else 2 * Real.sin (betaCore dop z) / zetaDenom dop z

/-- The wedging expression `2*sin(b)/(b + sin(b)*cos(b))` as a function of the
angle `b = beta`, used to analyse how zeta varies with embedment. -/
def zetaFun (b : ℝ) : ℝ :=
  2 * Real.sin b / (b + Real.sin b * Real.cos b)

namespace PSIModel

/-- Constant `self.g = 9.8` of `psi_backend.py`. -/
def g : ℝ := 9.8

/-- Constant `self.klay = 2.0` of `psi_backend.py`. -/
def klay : ℝ := 2.0

/-- `self.sub_wt = sub_wt_raw - 10.05` (`psi_backend.py` line 18). -/
def sub_wt (i : SLIn) : ℝ := i.gamma_bulk - 10.05

/-- `dip = dop - 2*tp` (`calculate_weights`). -/
def dip (i : SLIn) : ℝ := i.dop - 2 * i.tp

/-- `wp = (pi*(dop^2 - dip^2)*7850)/4`. -/
def wp (i : SLIn) : ℝ := (Real.pi * (i.dop ^ 2 - dip i ^ 2) * 7850) / 4

/-- `wcon = (pi*dip^2*1000)/4` (the `rho_conc = 1000` constant). -/
def wcon (i : SLIn) : ℝ := (Real.pi * dip i ^ 2 * 1000) / 4

/-- `wb = (pi*dop^2*1025)/4`. -/
def wb (i : SLIn) : ℝ := (Real.pi * i.dop ^ 2 * 1025) / 4

/-- `wpf = ((wp + wcon - wb)*g)/1000`. -/
def wpf (i : SLIn) : ℝ := ((wp i + wcon i - wb i) * g) / 1000

/-- `wpins = (pi*(dop^2 - dip^2)*(7850 - 1025))/4` — NOT scaled by `g/1000`
here, unlike the trenched backend. -/
def wpins (i : SLIn) : ℝ := (Real.pi * (i.dop ^ 2 - dip i ^ 2) * (7850 - 1025)) / 4

/-- `v = max(wpins*klay*g/1000, wpf)` (`psi_backend.py` line 48). -/
def v (i : SLIn) : ℝ := max (wpins i * klay * g / 1000) (wpf i)

/-- The unguarded `b_width = 2*math.sqrt(dop*z - z^2)` of `psi_backend.py`
line 57, with `math.sqrt` modelled exception-faithfully: `none` is the
`ValueError` Python raises when the radicand is negative. -/
def b_widthE (dop z : ℝ) : Option ℝ :=
  Option.map (fun s => 2 * s) (pySqrt (dop * z - z ^ 2))

/-- Total-value reading of `b_width = 2*math.sqrt(dop*z - z^2)`; it agrees
with `b_widthE` whenever the radicand is nonnegative (the only case in which
the Python call returns). -/
def b_width (i : SLIn) : ℝ := 2 * Real.sqrt (i.dop * i.z - i.z ^ 2)

/-- `abm` of `calculate_geometry_and_resistance` (`psi_backend.py` lines
56–64): segment area below `dop/2` embedment, half-circle plus rectangle
above. -/
def abm (i : SLIn) : ℝ :=
  if i.z < i.dop / 2 then
    Real.arcsin (b_width i / i.dop) * (i.dop ^ 2 / 4) -
      b_width i * (i.dop / 4) * Real.cos (Real.arcsin (b_width i / i.dop))
  else
    Real.pi * i.dop ^ 2 / 8 + i.dop * (i.z - i.dop / 2)

/-- `qv = (min(6*(z/dop)^0.25, 3.4*(10*z/dop)^0.5) + 1.5*sub_wt*abm/(dop*su))*dop*su`
(`psi_backend.py` lines 67–69). -/
def qv (i : SLIn) : ℝ :=
  (min (6 * (i.z / i.dop) ^ (0.25 : ℝ)) (3.4 * (10 * i.z / i.dop) ^ (0.5 : ℝ)) +
    1.5 * sub_wt i * abm i / (i.dop * i.su)) * i.dop * i.su

/-- The wedging factor of `PSI_Undrained_Model` on the record. -/
def zeta (i : SLIn) : ℝ := zetaPSICore i.dop i.z

/-- `fl_remain = z*rate*(2*su + 0.5*sub_wt*z)` (`psi_backend.py` line 84) —
note it reads `self.su`, the undrained shear strength, not a passive
strength (this class has no `su_passive` input). -/
def fl_remain (i : SLIn) : ℝ :=
  i.z * i.rate * (2 * i.su + 0.5 * sub_wt i * i.z)

/-- `abrk = alpha*ssr*(ocr**prem)*zeta*rate*v` (`run_simulation`, per
surface/estimate cell). -/
def abrk (i : SLIn) (s : Surface) (e : Est) : ℝ :=
  i.alpha * i.ssr s e * i.ocr ^ i.prem s e * zeta i * i.rate * v i

/-- `ares = (1/st)*abrk`. -/
def ares (i : SLIn) (s : Surface) (e : Est) : ℝ :=
  (1 / i.st) * abrk i s e

/-- `lbrk = alpha*ssr*(ocr**prem)*rate*v + fl_remain`. -/
def lbrk (i : SLIn) (s : Surface) (e : Est) : ℝ :=
  i.alpha * i.ssr s e * i.ocr ^ i.prem s e * i.rate * v i + fl_remain i

/-- `base_lres = (0.32 + 0.8*(z/dop)^0.8)*v` (`psi_backend.py` line 116). -/
def base_lres (i : SLIn) : ℝ :=
  (0.32 + 0.8 * (i.z / i.dop) ^ (0.8 : ℝ)) * v i

/-- `lres`: `base_lres/1.5` for `j = 0`, `base_lres*1.5` for `j = 2`,
`base_lres` otherwise.  The surface argument mirrors the enclosing loop; the
value does not depend on it. -/
def lres (i : SLIn) (s : Surface) (e : Est) : ℝ :=
  match s, e with
  | _, Est.low => base_lres i / 1.5
  | _, Est.high => base_lres i * 1.5
  | _, Est.best => base_lres i

/-- `dop_mm = dop * 1000`. -/
def dop_mm (i : SLIn) : ℝ := i.dop * 1000

/-- `xb` (axial breakout displacement), `psi_backend.py` lines 128–130:
`min(1.25, 0.0025*dop_mm)`, `min(5, 0.01*dop_mm)`, `max(50, 0.01*dop_mm)`
for `j = 0, 1, 2`.  Computed inside the surface loop but independent of the
surface. -/
def xb (i : SLIn) (s : Surface) (e : Est) : ℝ :=
  match s, e with
  | _, Est.low => min 1.25 (0.0025 * dop_mm i)
  | _, Est.best => min 5 (0.01 * dop_mm i)
  | _, Est.high => max 50 (0.01 * dop_mm i)

/-- `xr` (axial residual displacement), `psi_backend.py` lines 133–135. -/
def xr (i : SLIn) (s : Surface) (e : Est) : ℝ :=
  match s, e with
  | _, Est.low => min 7.5 (0.015 * dop_mm i)
  | _, Est.best => min 30 (0.06 * dop_mm i)
  | _, Est.high => max 250 (0.5 * dop_mm i)

/-- `yb` (lateral breakout displacement), `psi_backend.py` lines 138–140. -/
def yb (i : SLIn) (s : Surface) (e : Est) : ℝ :=
  match s, e with
  | _, Est.low => (0.004 + 0.02 * (i.z / i.dop)) * dop_mm i
  | _, Est.best => (0.02 + 0.25 * (i.z / i.dop)) * dop_mm i
  | _, Est.high => (0.1 + 0.7 * (i.z / i.dop)) * dop_mm i

/-- `yr` (lateral residual displacement), `psi_backend.py` lines 143–145. -/
def yr (i : SLIn) (s : Surface) (e : Est) : ℝ :=
  match s, e with
  | _, Est.low => 0.6 * dop_mm i
  | _, Est.best => 1.5 * dop_mm i
  | _, Est.high => 2.8 * dop_mm i

end PSIModel

namespace RunPSI

/-- `Sub_wt = inputs['gamma_bulk'] - 10.05` (`surfacelaid_psi_backend.py`
line 19). -/
def Sub_wt (i : SLIn) : ℝ := i.gamma_bulk - 10.05

/-- `Dip = Dop - 2*tp`. -/
def Dip (i : SLIn) : ℝ := i.dop - 2 * i.tp

/-- `Wp = (pi*(Dop^2 - Dip^2)*7850)/4`. -/
def Wp (i : SLIn) : ℝ := (Real.pi * (i.dop ^ 2 - Dip i ^ 2) * 7850) / 4

/-- `Wcon = (pi*Dip^2*1000)/4`. -/
def Wcon (i : SLIn) : ℝ := (Real.pi * Dip i ^ 2 * 1000) / 4

/-- `Wb = (pi*Dop^2*1025)/4`. -/
def Wb (i : SLIn) : ℝ := (Real.pi * i.dop ^ 2 * 1025) / 4

/-- `Wpf = ((Wp + Wcon - Wb)*g)/1000.0` with `g = 9.8`. -/
def Wpf (i : SLIn) : ℝ := ((Wp i + Wcon i - Wb i) * 9.8) / 1000

/-- `Wpins = (pi*(Dop^2 - Dip^2)*(7850 - 1025))/4`. -/
def Wpins (i : SLIn) : ℝ := (Real.pi * (i.dop ^ 2 - Dip i ^ 2) * (7850 - 1025)) / 4

/-- `V = max(Wpins*Klay*g/1000.0, Wpf)` with `Klay = 2.0`
(`surfacelaid_psi_backend.py` line 36). -/
def V (i : SLIn) : ℝ := max (Wpins i * 2.0 * 9.8 / 1000) (Wpf i)

/-- The guarded contact width of `surfacelaid_psi_backend.py` line 42:
`B = 2*np.sqrt(val) if val > 0 else 0` with `val = Dop*Z - Z^2`. -/
def Bcore (dop z : ℝ) : ℝ :=
  if dop * z - z ^ 2 > 0 then 2 * Real.sqrt (dop * z - z ^ 2) else 0

/-- `B` on the input record. -/
def B (i : SLIn) : ℝ := Bcore i.dop i.z

/-- The guarded `asin_val = np.arcsin(B/Dop) if abs(B/Dop) <= 1 else 0`
(`surfacelaid_psi_backend.py` line 44). -/
def asinVal (i : SLIn) : ℝ :=
  if |B i / i.dop| ≤ 1 then Real.arcsin (B i / i.dop) else 0

/-- `Abm` of `surfacelaid_psi_backend.py` lines 40–50, with its `Dop > 0`
guard (else `Abm = 0`) in the shallow branch. -/
def Abm (i : SLIn) : ℝ :=
  if i.z < i.dop / 2 then
    if i.dop > 0 then
      asinVal i * (i.dop ^ 2 / 4) - B i * (i.dop / 4) * Real.cos (asinVal i)
    else 0
  else
    Real.pi * i.dop ^ 2 / 8 + i.dop * (i.z - i.dop / 2)

/-- `Qv` of `surfacelaid_psi_backend.py` lines 53–58, guarded by `Dop > 0`
(else `Qv = 0`). -/
def Qv (i : SLIn) : ℝ :=
  if i.dop > 0 then
    (min (6 * (i.z / i.dop) ^ (0.25 : ℝ)) (3.4 * (10 * i.z / i.dop) ^ (0.5 : ℝ)) +
      1.5 * Sub_wt i * Abm i / (i.dop * i.su)) * i.dop * i.su
  else 0

/-- The wedging factor of `run_psi_analysis` on the record. -/
def zeta (i : SLIn) : ℝ := zetaSLCore i.dop i.z

/-- `Fl_remain = Z*rate*(2*Su_passive + 0.5*Sub_wt*Z)`
(`surfacelaid_psi_backend.py` line 70) — reads `Su_passive`. -/
def Fl_remain (i : SLIn) : ℝ :=
  i.z * i.rate * (2 * i.su_passive + 0.5 * Sub_wt i * i.z)

/-- `Abrk = alpha*SSR*(OCR**Prem)*zeta*rate*V`. -/
def Abrk (i : SLIn) (s : Surface) (e : Est) : ℝ :=
  i.alpha * i.ssr s e * i.ocr ^ i.prem s e * zeta i * i.rate * V i

/-- `Ares = (1.0/St)*Abrk`. -/
def Ares (i : SLIn) (s : Surface) (e : Est) : ℝ :=
  (1 / i.st) * Abrk i s e

/-- `Lbrk = alpha*SSR*(OCR**Prem)*rate*V + Fl_remain`. -/
def Lbrk (i : SLIn) (s : Surface) (e : Est) : ℝ :=
  i.alpha * i.ssr s e * i.ocr ^ i.prem s e * i.rate * V i + Fl_remain i

/-- `Lres_raw = (0.32 + 0.8*(Z/Dop)^0.8)*V if Dop > 0 else 0`
(`surfacelaid_psi_backend.py` line 105). -/
def Lres_raw (i : SLIn) : ℝ :=
  if i.dop > 0 then (0.32 + 0.8 * (i.z / i.dop) ^ (0.8 : ℝ)) * V i else 0

/-- `Lres`: `Lres_raw/1.5` for P5, `Lres_raw*1.5` for P95, `Lres_raw` for
P50.  Computed inside the surface loop but independent of the surface. -/
def Lres (i : SLIn) (s : Surface) (e : Est) : ℝ :=
  match s, e with
  | _, Est.low => Lres_raw i / 1.5
  | _, Est.high => Lres_raw i * 1.5
  | _, Est.best => Lres_raw i

/-- `Dop_mm = Dop * 1000.0`. -/
def Dop_mm (i : SLIn) : ℝ := i.dop * 1000

/-- `Xb`, `surfacelaid_psi_backend.py` lines 119/124/129. -/
def Xb (i : SLIn) (s : Surface) (e : Est) : ℝ :=
  match s, e with
  | _, Est.low => min 1.25 (0.0025 * Dop_mm i)
  | _, Est.best => min 5 (0.01 * Dop_mm i)
  | _, Est.high => max 50 (0.01 * Dop_mm i)

/-- `Xr`, `surfacelaid_psi_backend.py` lines 120/125/130. -/
def Xr (i : SLIn) (s : Surface) (e : Est) : ℝ :=
  match s, e with
  | _, Est.low => min 7.5 (0.015 * Dop_mm i)
  | _, Est.best => min 30 (0.06 * Dop_mm i)
  | _, Est.high => max 250 (0.5 * Dop_mm i)

/-- `Yb`, `surfacelaid_psi_backend.py` lines 121/126/131. -/
def Yb (i : SLIn) (s : Surface) (e : Est) : ℝ :=
  match s, e with
  | _, Est.low => (0.004 + 0.02 * (i.z / i.dop)) * Dop_mm i
  | _, Est.best => (0.02 + 0.25 * (i.z / i.dop)) * Dop_mm i
  | _, Est.high => (0.1 + 0.7 * (i.z / i.dop)) * Dop_mm i

/-- `Yr`, `surfacelaid_psi_backend.py` lines 122/127/132. -/
def Yr (i : SLIn) (s : Surface) (e : Est) : ℝ :=
  match s, e with
  | _, Est.low => 0.6 * Dop_mm i
  | _, Est.best => 1.5 * Dop_mm i
  | _, Est.high => 2.8 * Dop_mm i

end RunPSI

namespace Trenched

/-- Constructor inputs of `Trenched_PSI_Backend`: outer diameter, wall
thickness, trench/cover height. -/
structure TIn where
  dop : ℝ
  tp : ℝ
  h : ℝ

/-- One per-estimate soil tuple of `run_analysis`: the `i`-th entries of the
`soil_inputs` lists `alpha`, `g_bulk`, `s_bnb`, `s_bo`, `s_ba`. -/
structure TSoil where
  alpha : ℝ
  g_bulk : ℝ
  s_bnb : ℝ
  s_bo : ℝ
  s_ba : ℝ

/-- `dip = dop - 2*tp`. -/
def dip (t : TIn) : ℝ := t.dop - 2 * t.tp

/-- `ap = (pi*dop^2)/4`. -/
def ap (t : TIn) : ℝ := (Real.pi * t.dop ^ 2) / 4

/-- `wp = (pi*(dop^2 - dip^2)*7850)/4`. -/
def wp (t : TIn) : ℝ := (Real.pi * (t.dop ^ 2 - dip t ^ 2) * 7850) / 4

/-- `wcon = (pi*dip^2*1000)/4`. -/
def wcon (t : TIn) : ℝ := (Real.pi * dip t ^ 2 * 1000) / 4

/-- `wb = (pi*dop^2*1025)/4`. -/
def wb (t : TIn) : ℝ := (Real.pi * t.dop ^ 2 * 1025) / 4

/-- `wpf = ((wp + wcon - wb)*g_acc)/1000` with `g_acc = 9.8`. -/
def wpf (t : TIn) : ℝ := ((wp t + wcon t - wb t) * 9.8) / 1000

/-- `wpins = ((pi*(dop^2 - dip^2)*(7850 - 1025))/4)*g_acc/1000`
(`trenched_psi_backend.py` line 48) — here the `g/1000` scaling is folded
into `wpins` itself, unlike the surface-laid backends. -/
def wpins (t : TIn) : ℝ :=
  ((Real.pi * (t.dop ^ 2 - dip t ^ 2) * (7850 - 1025)) / 4) * 9.8 / 1000

/-- `v = max(wpins*klay, wpf)` with `klay = 2.0`
(`trenched_psi_backend.py` line 51). -/
def v (t : TIn) : ℝ := max (wpins t * 2.0) (wpf t)

/-- `g_sub = g_bulk - 10.05`, per estimate. -/
def g_sub (s : TSoil) : ℝ := s.g_bulk - 10.05

/-- `fa_deep = alpha*s_bnb*pi*dop`. -/
def fa_deep (t : TIn) (s : TSoil) : ℝ := s.alpha * s.s_bnb * Real.pi * t.dop

/-- `fa_shallow = alpha*s_bo*(pi*dop/2) + 2*s_ba*(h + dop/2)`. -/
def fa_shallow (t : TIn) (s : TSoil) : ℝ :=
  s.alpha * s.s_bo * (Real.pi * t.dop / 2) + 2 * s.s_ba * (t.h + t.dop / 2)

/-- `axial_gov = min(fa_deep, fa_shallow)`. -/
def axial_gov (t : TIn) (s : TSoil) : ℝ := min (fa_deep t s) (fa_shallow t s)

/-- `fu_local = (nc*s_bnb*dop) - (g_sub*ap)` with `nc = 9.0`. -/
def fu_local (t : TIn) (s : TSoil) : ℝ := 9.0 * s.s_bnb * t.dop - g_sub s * ap t

/-- `fu_global = g_sub*h*dop + g_sub*dop^2*(0.5 - pi/8) + 2*s_bnb*(h + dop/2)`. -/
def fu_global (t : TIn) (s : TSoil) : ℝ :=
  g_sub s * t.h * t.dop + g_sub s * t.dop ^ 2 * (0.5 - Real.pi / 8) +
    2 * s.s_bnb * (t.h + t.dop / 2)

/-- `uplift_gov = min(fu_local, fu_global)`. -/
def uplift_gov (t : TIn) (s : TSoil) : ℝ := min (fu_local t s) (fu_global t s)

end Trenched

/-- The surface-laid scenario of spec §8: `Dop=0.3239, tp=0.0127, Z=0.05,
Su=5.0, OCR=1.0, St=3.0, Su_passive=5.0, gamma_bulk=16.0, alpha=0.5,
rate=1.0`, with `SSR=0.35`, `Prem=1.0` for every cell. -/
def iScn : SLIn :=
  ⟨0.3239, 0.0127, 0.05, 5, 1, 3, 0.5, 1, 16, 5, fun _ _ => 0.35, fun _ _ => 1⟩

/-- A surface-laid input whose passive shear strength differs from its
undrained shear strength: `Su = 5` but `Su_passive = 7` (with `Dop = 1`,
`Z = 1`, `rate = 1`, `gamma_bulk = 16`). -/
def iDiff : SLIn :=
  ⟨1, 0.1, 1, 5, 1, 3, 0.5, 1, 16, 7, fun _ _ => 0.35, fun _ _ => 1⟩

/-- A surface-laid input embedded to exactly half a diameter:
`Dop = 1`, `Z = 0.5`. -/
def iHalf : SLIn :=
  ⟨1, 0.1, 1 / 2, 5, 1, 3, 0.5, 1, 16, 5, fun _ _ => 0.35, fun _ _ => 1⟩

/-- The trenched geometry of spec §8: `Dop=0.40, tp=0.015, H=1.00`. -/
def tScn : Trenched.TIn := ⟨0.40, 0.015, 1⟩

/-- The trenched P50 soil tuple of spec §8:
`alpha=0.6, g_bulk=17.0, s_bnb=3.0, s_bo=4.0, s_ba=3.5`. -/
def sScn : Trenched.TSoil := ⟨0.6, 17, 3, 4, 3.5⟩

/-- The product `sin b * cos b` is bounded below by `-1/2`. -/
theorem sin_mul_cos_ge (b : ℝ) : -(1 / 2) ≤ Real.sin b * Real.cos b := by
  nlinarith [sq_nonneg (Real.sin b + Real.cos b), Real.sin_sq_add_cos_sq b]

/-- The wedging-factor denominator `b + sin b * cos b` is positive for every
positive `b`. -/
theorem denomAux_pos (b : ℝ) (hb : 0 < b) : 0 < b + Real.sin b * Real.cos b := by
  rcases le_or_lt b (1 / 2) with h | h
  · have hs : 0 ≤ Real.sin b :=
      Real.sin_nonneg_of_nonneg_of_le_pi hb.le (by linarith [Real.pi_gt_three])
    have hc : 0 ≤ Real.cos b := by
      have hmem : b ∈ Set.Ioo (-(Real.pi / 2)) (Real.pi / 2) := by
        constructor
        · linarith [Real.pi_pos]
        · linarith [Real.pi_gt_three]
      exact (Real.cos_pos_of_mem_Ioo hmem).le
    nlinarith [mul_nonneg hs hc]
  · nlinarith [sin_mul_cos_ge b]

/-- The clamp keeps values strictly below `1` when its argument is. -/
theorem clampUnit_lt_one {x : ℝ} (hx : x < 1) : clampUnit x < 1 :=
  max_lt (by norm_num) ((min_le_right 1 x).trans_lt hx)

/-- The clamp keeps values strictly above `-1` when its argument is. -/
theorem clampUnit_gt_neg_one {x : ℝ} (hx : -1 < x) : -1 < clampUnit x :=
  lt_of_lt_of_le (lt_min (by norm_num) hx) (le_max_right _ _)

/-- The clamp is the identity on `[-1, 1]`. -/
theorem clampUnit_eq_self {x : ℝ} (h1 : -1 ≤ x) (h2 : x ≤ 1) : clampUnit x = x := by
  rw [clampUnit, min_eq_right h2, max_eq_right h1]

/-- The clamp output is nonpositive when its argument is. -/
theorem clampUnit_nonpos {x : ℝ} (hx : x ≤ 0) : clampUnit x ≤ 0 :=
  max_le (by norm_num) (le_trans (min_le_right 1 x) hx)

/-- `beta` is nonnegative (range of `acos`). -/
theorem betaCore_nonneg (dop z : ℝ) : 0 ≤ betaCore dop z :=
  Real.arccos_nonneg _

/-- `beta` is at most `pi` (range of `acos`). -/
theorem betaCore_le_pi (dop z : ℝ) : betaCore dop z ≤ Real.pi :=
  Real.arccos_le_pi _

/-- For `Dop > 0` and `Z > 0`, `beta` is positive. -/
theorem betaCore_pos {dop z : ℝ} (hdop : 0 < dop) (hz : 0 < z) :
    0 < betaCore dop z := by
  apply Real.arccos_pos.mpr
  apply clampUnit_lt_one
  have : 0 < z / (dop / 2) := div_pos hz (by linarith)
  linarith

/-- For `Dop > 0` and `Z < Dop`, `beta` is strictly less than `pi`. -/
theorem betaCore_lt_pi {dop z : ℝ} (hdop : 0 < dop) (hz : z < dop) :
    betaCore dop z < Real.pi := by
  refine (betaCore_le_pi dop z).lt_of_ne fun hEq => ?_
  have h1 : clampUnit (1 - z / (dop / 2)) ≤ -1 := Real.arccos_eq_pi.mp hEq
  have h2 : z / (dop / 2) < 2 := by
    rw [div_lt_iff (by linarith : (0 : ℝ) < dop / 2)]
    linarith
  have h3 : -1 < clampUnit (1 - z / (dop / 2)) := clampUnit_gt_neg_one (by linarith)
  linarith

/-- The wedging denominator is positive whenever `beta` is nonzero. -/
theorem zetaDenom_pos {dop z : ℝ} (h : betaCore dop z ≠ 0) :
    0 < zetaDenom dop z :=
  denomAux_pos _ ((betaCore_nonneg dop z).lt_of_ne (Ne.symm h))

/-- The two backends guard the wedging division by equivalent conditions:
the denominator vanishes exactly when `beta` does. -/
theorem zetaDenom_eq_zero_iff (dop z : ℝ) :
    zetaDenom dop z = 0 ↔ betaCore dop z = 0 := by
  constructor
  · intro h
    by_contra hb
    exact absurd h (zetaDenom_pos hb).ne'
  · intro h
    rw [zetaDenom, h]
    simp

/-- The two surface-laid wedging factors (guard `beta == 0` in
`psi_backend.py`, guard `denom != 0` in `surfacelaid_psi_backend.py`) are
equal. -/
theorem zetaCore_eq (dop z : ℝ) : zetaPSICore dop z = zetaSLCore dop z := by
  rw [zetaPSICore, zetaSLCore]
  by_cases hb : betaCore dop z = 0
  · rw [if_pos hb, if_pos ((zetaDenom_eq_zero_iff dop z).mpr hb)]
  · rw [if_neg hb, if_neg fun h => hb ((zetaDenom_eq_zero_iff dop z).mp h)]

/-- Bound used for the upper wedging estimate:
`sin b * (1 - cos b) ≤ b` on `[0, pi]`. -/
theorem sin_mul_one_sub_cos_le (b : ℝ) (hb : 0 ≤ b) (hbpi : b ≤ Real.pi) :
    Real.sin b * (1 - Real.cos b) ≤ b := by
  have hs0 : 0 ≤ Real.sin b := Real.sin_nonneg_of_nonneg_of_le_pi hb hbpi
  have hs1 : Real.sin b ≤ 1 := Real.sin_le_one b
  have hcq : 1 - Real.cos b ≤ b ^ 2 / 2 := by
    have := @Real.one_sub_sq_div_two_le_cos b
    linarith
  have hcnn : 0 ≤ 1 - Real.cos b := by linarith [Real.cos_le_one b]
  rcases le_or_lt b 2 with h2 | h2
  · calc Real.sin b * (1 - Real.cos b) ≤ 1 * (1 - Real.cos b) :=
        mul_le_mul_of_nonneg_right hs1 hcnn
      _ ≤ b ^ 2 / 2 := by linarith
      _ ≤ b := by nlinarith
  · calc Real.sin b * (1 - Real.cos b) ≤ 1 * 2 :=
        mul_le_mul hs1 (by linarith [Real.neg_one_le_cos b]) hcnn zero_le_one
      _ ≤ b := by linarith

/-- For `Dop > 0` and `Z < Dop` the `psi_backend.py` wedging factor lies in
`(0, 2]`. -/
theorem zetaPSICore_bounds {dop z : ℝ} (hdop : 0 < dop) (hz : z < dop) :
    0 < zetaPSICore dop z ∧ zetaPSICore dop z ≤ 2 := by
  by_cases hb : betaCore dop z = 0
  · rw [zetaPSICore, if_pos hb]
    norm_num
  · have hbpos : 0 < betaCore dop z := (betaCore_nonneg dop z).lt_of_ne (Ne.symm hb)
    have hbpi : betaCore dop z < Real.pi := betaCore_lt_pi hdop hz
    have hsin : 0 < Real.sin (betaCore dop z) := Real.sin_pos_of_pos_of_lt_pi hbpos hbpi
    have hden : 0 < zetaDenom dop z := zetaDenom_pos hb
    rw [zetaPSICore, if_neg hb]
    constructor
    · exact div_pos (by linarith) hden
    · rw [div_le_iff hden]
      have hkey := sin_mul_one_sub_cos_le (betaCore dop z) (betaCore_nonneg dop z) hbpi.le
      rw [zetaDenom]
      nlinarith [hkey]

/-- At half-diameter embedment `Z = Dop/2` (with `Dop ≠ 0`), `beta = pi/2`. -/
theorem betaCore_half {dop : ℝ} (hdop : dop ≠ 0) :
    betaCore dop (dop / 2) = Real.pi / 2 := by
  have h2 : dop / 2 / (dop / 2) = 1 := div_self (by simpa using hdop)
  rw [betaCore, h2]
  norm_num [clampUnit, Real.arccos_zero]

/-- At half-diameter embedment the `psi_backend.py` wedging factor equals
`4/pi`. -/
theorem zetaPSICore_half {dop : ℝ} (hdop : dop ≠ 0) :
    zetaPSICore dop (dop / 2) = 4 / Real.pi := by
  have hb : betaCore dop (dop / 2) = Real.pi / 2 := betaCore_half hdop
  have hbne : betaCore dop (dop / 2) ≠ 0 := by
    rw [hb]
    positivity
  rw [zetaPSICore, if_neg hbne, zetaDenom, hb, Real.sin_pi_div_two, Real.cos_pi_div_two]
  rw [mul_zero, add_zero, mul_one, div_div_eq_mul_div]
  norm_num

/-- The value `4/pi` exceeds `1`. -/
theorem four_div_pi_gt_one : 1 < 4 / Real.pi :=
  (one_lt_div Real.pi_pos).mpr (by linarith [Real.pi_lt_315])

/-- At zero embedment, `beta = 0` (this is the `acos(1)` case both backends
special-case). -/
theorem betaCore_zero_emb (dop : ℝ) : betaCore dop 0 = 0 := by
  rw [betaCore, zero_div]
  norm_num [clampUnit, Real.arccos_one]

/-- At zero embedment the `psi_backend.py` wedging factor equals `1`. -/
theorem zetaPSICore_zero_emb (dop : ℝ) : zetaPSICore dop 0 = 1 := by
  rw [zetaPSICore, if_pos (betaCore_zero_emb dop)]

/-- At full-diameter embedment `Z = Dop` (with `Dop ≠ 0`), `beta = pi`. -/
theorem betaCore_full {dop : ℝ} (hdop : dop ≠ 0) : betaCore dop dop = Real.pi := by
  have h2 : dop / (dop / 2) = 2 := by
    field_simp
  rw [betaCore, h2]
  have hcl : clampUnit ((1 : ℝ) - 2) = -1 := by
    rw [clampUnit, show (1 : ℝ) - 2 = -1 by norm_num,
      min_eq_right (by norm_num : (-1 : ℝ) ≤ 1), max_self]
  rw [hcl, Real.arccos_neg_one]

/-- At full-diameter embedment the `psi_backend.py` wedging factor equals
`0`. -/
theorem zetaPSICore_full {dop : ℝ} (hdop : dop ≠ 0) : zetaPSICore dop dop = 0 := by
  have hb : betaCore dop dop = Real.pi := betaCore_full hdop
  have hbne : betaCore dop dop ≠ 0 := by
    rw [hb]
    exact Real.pi_ne_zero
  rw [zetaPSICore, if_neg hbne, hb, Real.sin_pi]
  simp

/-- The guarded contact width equals the raw square-root expression whenever
the radicand is nonnegative (the guard only rewrites `sqrt 0` as `0`). -/
theorem Bcore_eq_sqrt {dop z : ℝ} (hr : 0 ≤ dop * z - z ^ 2) :
    RunPSI.Bcore dop z = 2 * Real.sqrt (dop * z - z ^ 2) := by
  rcases eq_or_lt_of_le hr with h0 | hpos
  · rw [RunPSI.Bcore, if_neg (not_lt.mpr h0.ge), ← h0, Real.sqrt_zero, mul_zero]
  · rw [RunPSI.Bcore, if_pos hpos]

/-- The contact width `2*sqrt(Dop*Z - Z^2)` never exceeds the diameter. -/
theorem b_width_le_dop {dop z : ℝ} (hdop : 0 ≤ dop) :
    2 * Real.sqrt (dop * z - z ^ 2) ≤ dop := by
  have h1 : dop * z - z ^ 2 ≤ (dop / 2) ^ 2 := by nlinarith [sq_nonneg (dop / 2 - z)]
  have h2 : Real.sqrt (dop * z - z ^ 2) ≤ dop / 2 := by
    calc Real.sqrt (dop * z - z ^ 2) ≤ Real.sqrt ((dop / 2) ^ 2) := Real.sqrt_le_sqrt h1
      _ = dop / 2 := Real.sqrt_sq (by linarith)
  linarith

/-- For valid inputs (`Dop > 0`, `Z ≥ 0`) the penetrated areas computed by
the two surface-laid backends agree: the guards of `run_psi_analysis`
(`val > 0`, `|B/Dop| ≤ 1`, `Dop > 0`) are all satisfied or value-preserving
there. -/
theorem abm_eq (i : SLIn) (hdop : 0 < i.dop) (hz : 0 ≤ i.z) :
    PSIModel.abm i = RunPSI.Abm i := by
  by_cases hbr : i.z < i.dop / 2
  · have hr : 0 ≤ i.dop * i.z - i.z ^ 2 := by nlinarith
    have hB : RunPSI.B i = PSIModel.b_width i := Bcore_eq_sqrt hr
    have hBle : RunPSI.B i ≤ i.dop := by
      rw [hB, PSIModel.b_width]
      exact b_width_le_dop hdop.le
    have hBnn : 0 ≤ RunPSI.B i := by
      rw [hB, PSIModel.b_width]
      positivity
    have habs : |RunPSI.B i / i.dop| ≤ 1 := by
      rw [abs_of_nonneg (div_nonneg hBnn hdop.le)]
      exact (div_le_one hdop).mpr hBle
    have hasin : RunPSI.asinVal i = Real.arcsin (RunPSI.B i / i.dop) :=
      if_pos habs
    rw [PSIModel.abm, if_pos hbr, RunPSI.Abm, if_pos hbr, if_pos hdop, hasin, hB]
  · rw [PSIModel.abm, if_neg hbr, RunPSI.Abm, if_neg hbr]

/-- For valid inputs the vertical bearing capacities of the two surface-laid
backends agree. -/
theorem qv_eq (i : SLIn) (hdop : 0 < i.dop) (hz : 0 ≤ i.z) :
    PSIModel.qv i = RunPSI.Qv i := by
  rw [PSIModel.qv, RunPSI.Qv, if_pos hdop, abm_eq i hdop hz]
  rfl

/-- Claim C2, counterexample: at `Dop = 1`, `Z = 0.5` (a valid surface-laid
input with `Dop > 0`, `Z ≥ 0`), the wedging factor returned by
`run_psi_analysis` is `4/pi ≈ 1.273 > 1`, so zeta does not lie in `(0, 1]`. -/
theorem c2_zeta_range_cex :
    0 < iHalf.dop ∧ 0 ≤ iHalf.z ∧ 1 < RunPSI.zeta iHalf := by
  refine ⟨by norm_num [iHalf], by norm_num [iHalf], ?_⟩
  have h : RunPSI.zeta iHalf = zetaPSICore 1 (1 / 2) := (zetaCore_eq 1 (1 / 2)).symm
  have h2 : zetaPSICore 1 (1 / 2) = 4 / Real.pi :=
    zetaPSICore_half (one_ne_zero : (1 : ℝ) ≠ 0)
  rw [h, h2]
  exact four_div_pi_gt_one

/-- Claim C2, amended: for `Dop > 0` and `0 ≤ Z < Dop` the wedging factor
returned by each surface-laid backend is positive and at most `2` (it is not
bounded by `1`: it reaches `4/pi` at `Z = Dop/2`). -/
theorem c2_zeta_range_amended (i : SLIn) (hdop : 0 < i.dop) (hz0 : 0 ≤ i.z)
    (hzd : i.z < i.dop) :
    (0 < PSIModel.zeta i ∧ PSIModel.zeta i ≤ 2) ∧
    (0 < RunPSI.zeta i ∧ RunPSI.zeta i ≤ 2) := by
  have h := zetaPSICore_bounds hdop hzd
  refine ⟨h, ?_⟩
  rw [RunPSI.zeta, ← zetaCore_eq]
  exact h

/-- Claim C2, witness: the amended bounds at the §8 scenario input
(`Dop = 0.3239`, `Z = 0.05`). -/
theorem c2_zeta_range_witness :
    (0 < PSIModel.zeta iScn ∧ PSIModel.zeta iScn ≤ 2) ∧
    (0 < RunPSI.zeta iScn ∧ RunPSI.zeta iScn ≤ 2) :=
  c2_zeta_range_amended iScn (by norm_num [iScn]) (by norm_num [iScn])
    (by norm_num [iScn])

/-- Claim C1, counterexample: at an input with `Su = 5` and `Su_passive = 7`
(`iDiff`, with `Z = rate = 1`, `gamma_bulk = 16` so `Sub_wt = 5.95`), the
`Fl_remain` returned by `PSI_Undrained_Model` is `12.975`, not the claimed
`Z*rate*(2*Su_passive + 0.5*Sub_wt*Z) = 16.975`: that backend computes the
passive term from `Su`, having no `Su_passive` input at all. -/
theorem c1_fl_remain_cex :
    PSIModel.fl_remain iDiff ≠
      iDiff.z * iDiff.rate * (2 * iDiff.su_passive + 0.5 * (iDiff.gamma_bulk - 10.05) * iDiff.z) := by
  simp only [PSIModel.fl_remain, PSIModel.sub_wt, iDiff]
  norm_num

/-- Claim C1, amended: `run_psi_analysis` returns
`Fl_remain = Z*rate*(2*Su_passive + 0.5*(gamma_bulk - 10.05)*Z)`, while
`PSI_Undrained_Model` (which has no `Su_passive` input) substitutes the
undrained shear strength `Su` for `Su_passive` in the same formula. -/
theorem c1_fl_remain_amended (i : SLIn) :
    RunPSI.Fl_remain i =
      i.z * i.rate * (2 * i.su_passive + 0.5 * (i.gamma_bulk - 10.05) * i.z) ∧
    PSIModel.fl_remain i =
      i.z * i.rate * (2 * i.su + 0.5 * (i.gamma_bulk - 10.05) * i.z) :=
  ⟨rfl, rfl⟩

/-- Claim C4: for every trenched soil tuple and geometry with `Dop > 0` and
`H ≥ 0`, the governing axial resistance is the `min` of the deep and shallow
mechanisms and the governing uplift resistance is the `min` of the local and
global mechanisms, with `g_sub = g_bulk - 10.05` and `Ap = pi*Dop^2/4`; each
governing value is at most both of its two candidates. -/
theorem c4_trenched_governing (t : Trenched.TIn) (s : Trenched.TSoil)
    (hdop : 0 < t.dop) (hh : 0 ≤ t.h) :
    Trenched.axial_gov t s =
      min (s.alpha * s.s_bnb * Real.pi * t.dop)
        (s.alpha * s.s_bo * (Real.pi * t.dop / 2) + 2 * s.s_ba * (t.h + t.dop / 2)) ∧
    Trenched.uplift_gov t s =
      min (9.0 * s.s_bnb * t.dop - (s.g_bulk - 10.05) * (Real.pi * t.dop ^ 2 / 4))
        ((s.g_bulk - 10.05) * t.h * t.dop +
          (s.g_bulk - 10.05) * t.dop ^ 2 * (0.5 - Real.pi / 8) +
          2 * s.s_bnb * (t.h + t.dop / 2)) ∧
    Trenched.axial_gov t s ≤ Trenched.fa_deep t s ∧
    Trenched.axial_gov t s ≤ Trenched.fa_shallow t s ∧
    Trenched.uplift_gov t s ≤ Trenched.fu_local t s ∧
    Trenched.uplift_gov t s ≤ Trenched.fu_global t s :=
  ⟨rfl, rfl, min_le_left _ _, min_le_right _ _, min_le_left _ _, min_le_right _ _⟩

/-- Claim C4, witness: the governing-resistance law instantiated at the §8
trenched scenario (`Dop=0.40, tp=0.015, H=1.00`, P50 soil tuple). -/
theorem c4_trenched_governing_witness :
    Trenched.axial_gov tScn sScn =
      min (sScn.alpha * sScn.s_bnb * Real.pi * tScn.dop)
        (sScn.alpha * sScn.s_bo * (Real.pi * tScn.dop / 2) +
          2 * sScn.s_ba * (tScn.h + tScn.dop / 2)) ∧
    Trenched.uplift_gov tScn sScn =
      min (9.0 * sScn.s_bnb * tScn.dop - (sScn.g_bulk - 10.05) * (Real.pi * tScn.dop ^ 2 / 4))
        ((sScn.g_bulk - 10.05) * tScn.h * tScn.dop +
          (sScn.g_bulk - 10.05) * tScn.dop ^ 2 * (0.5 - Real.pi / 8) +
          2 * sScn.s_bnb * (tScn.h + tScn.dop / 2)) := by
  have h := c4_trenched_governing tScn sScn (by norm_num [tScn]) (by norm_num [tScn])
  exact ⟨h.1, h.2.1⟩

/-- Claim C6: in both surface-laid backends the axial breakout displacement
of the low (P5) tier is `min(1.25, 0.0025*Dop_mm)` — an upper cap — and that
of the high (P95) tier is `max(50, 0.01*Dop_mm)` — a lower floor — with
`Dop_mm = Dop*1000`, identically for either surface type. -/
theorem c6_axial_break_disp (i : SLIn) (s : Surface) (hdop : 0 < i.dop) :
    PSIModel.xb i s Est.low = min 1.25 (0.0025 * (i.dop * 1000)) ∧
    PSIModel.xb i s Est.high = max 50 (0.01 * (i.dop * 1000)) ∧
    RunPSI.Xb i s Est.low = min 1.25 (0.0025 * (i.dop * 1000)) ∧
    RunPSI.Xb i s Est.high = max 50 (0.01 * (i.dop * 1000)) :=
  ⟨rfl, rfl, rfl, rfl⟩

/-- Claim C6, witness: the displacement bound laws at the §8 scenario input
with the concrete surface. -/
theorem c6_axial_break_disp_witness :
    PSIModel.xb iScn Surface.concrete Est.low = min 1.25 (0.0025 * (iScn.dop * 1000)) ∧
    PSIModel.xb iScn Surface.concrete Est.high = max 50 (0.01 * (iScn.dop * 1000)) :=
  ⟨(c6_axial_break_disp iScn Surface.concrete (by norm_num [iScn])).1,
   (c6_axial_break_disp iScn Surface.concrete (by norm_num [iScn])).2.1⟩

/-- Claim C7: in both surface-laid backends, for each surface type, the
low-estimate lateral residual force is the best-estimate value divided by
`1.5`, the high-estimate value is the best-estimate value times `1.5`, and
the best-estimate value is `(0.32 + 0.8*(Z/Dop)^0.8)*V`. -/
theorem c7_lateral_residual_ratio (i : SLIn) (s : Surface) (hdop : 0 < i.dop) :
    PSIModel.lres i s Est.low = PSIModel.lres i s Est.best / 1.5 ∧
    PSIModel.lres i s Est.high = PSIModel.lres i s Est.best * 1.5 ∧
    PSIModel.lres i s Est.best = (0.32 + 0.8 * (i.z / i.dop) ^ (0.8 : ℝ)) * PSIModel.v i ∧
    RunPSI.Lres i s Est.low = RunPSI.Lres i s Est.best / 1.5 ∧
    RunPSI.Lres i s Est.high = RunPSI.Lres i s Est.best * 1.5 ∧
    RunPSI.Lres i s Est.best = (0.32 + 0.8 * (i.z / i.dop) ^ (0.8 : ℝ)) * RunPSI.V i := by
  refine ⟨rfl, rfl, rfl, rfl, rfl, ?_⟩
  simp only [RunPSI.Lres, RunPSI.Lres_raw, if_pos hdop]

/-- Claim C7, witness: the exact ratio law at the §8 scenario input with the
PET surface. -/
theorem c7_lateral_residual_ratio_witness :
    PSIModel.lres iScn Surface.pet Est.low = PSIModel.lres iScn Surface.pet Est.best / 1.5 ∧
    RunPSI.Lres iScn Surface.pet Est.high = RunPSI.Lres iScn Surface.pet Est.best * 1.5 :=
  ⟨(c7_lateral_residual_ratio iScn Surface.pet (by norm_num [iScn])).1,
   (c7_lateral_residual_ratio iScn Surface.pet (by norm_num [iScn])).2.2.2.2.1⟩

/-- Claim C9: in both surface-laid backends, for every cell, the axial
residual force equals the axial breakout force of the same cell divided by
the sensitivity `St` (both compute `(1/St)*Abrk`). -/
theorem c9_axial_residual (i : SLIn) (s : Surface) (e : Est) (hst : i.st ≠ 0) :
    PSIModel.ares i s e = PSIModel.abrk i s e / i.st ∧
    RunPSI.Ares i s e = RunPSI.Abrk i s e / i.st :=
  ⟨one_div_mul_eq_div i.st (PSIModel.abrk i s e),
   one_div_mul_eq_div i.st (RunPSI.Abrk i s e)⟩

/-- Claim C9, witness: at the §8 scenario (`St = 3.0`), axial residual equals
axial breakout divided by `3.0` exactly, in both backends. -/
theorem c9_axial_residual_witness :
    PSIModel.ares iScn Surface.concrete Est.best = PSIModel.abrk iScn Surface.concrete Est.best / 3 ∧
    RunPSI.Ares iScn Surface.concrete Est.best = RunPSI.Abrk iScn Surface.concrete Est.best / 3 :=
  c9_axial_residual iScn Surface.concrete Est.best (by norm_num [iScn])

/-- Claim C10: for the same `Dop` and `tp`, the effective vertical force of
the trenched backend (`max(wpins*klay, wpf)` with `g/1000` folded into
`wpins`) equals, in exact real arithmetic, the effective vertical force of
both surface-laid backends (`max(wpins*klay*g/1000, wpf)` with unscaled
`wpins`): the two formulations multiply the same factors in a different
order. -/
theorem c10_effective_force_agree (i : SLIn) (t : Trenched.TIn)
    (hdop : t.dop = i.dop) (htp : t.tp = i.tp) :
    Trenched.v t = PSIModel.v i ∧ Trenched.v t = RunPSI.V i := by
  constructor <;>
  · simp only [Trenched.v, Trenched.wpins, Trenched.wpf, Trenched.wp, Trenched.wcon,
      Trenched.wb, Trenched.dip, PSIModel.v, PSIModel.wpins, PSIModel.wpf, PSIModel.wp,
      PSIModel.wcon, PSIModel.wb, PSIModel.dip, PSIModel.g, PSIModel.klay,
      RunPSI.V, RunPSI.Wpins, RunPSI.Wpf, RunPSI.Wp, RunPSI.Wcon, RunPSI.Wb, RunPSI.Dip,
      hdop, htp]
    congr 1 <;> ring

/-- Claim C10, witness: the trenched §8 geometry against a surface-laid
record with the same `Dop = 0.40` and `tp = 0.015`. -/
theorem c10_effective_force_agree_witness :
    Trenched.v tScn = PSIModel.v ⟨0.40, 0.015, 0.05, 5, 1, 3, 0.5, 1, 16, 5,
      fun _ _ => 0.35, fun _ _ => 1⟩ :=
  (c10_effective_force_agree
    ⟨0.40, 0.015, 0.05, 5, 1, 3, 0.5, 1, 16, 5, fun _ _ => 0.35, fun _ _ => 1⟩
    tScn (by norm_num [tScn]) (by norm_num [tScn])).1

/-- Claim C8, counterexample: the partial-embedment branch of
`PSI_Undrained_Model` has no radicand guard: at `Dop = 1`, `Z = -1` (which
satisfies the branch condition `Z < Dop/2`), the radicand `Dop*Z - Z^2 = -2`
is negative and `math.sqrt` raises a domain error (modelled as `none`)
instead of producing `B = 0`. -/
theorem c8_radicand_guard_cex :
    ((-1 : ℝ) < 1 / 2) ∧ PSIModel.b_widthE 1 (-1) = none := by
  constructor
  · norm_num
  · simp only [PSIModel.b_widthE, pySqrt]
    norm_num

/-- Claim C8, amended: the radicand guard is present in `run_psi_analysis`
(whenever `Dop*Z - Z^2 ≤ 0` it sets `B = 0`, taking no square root), but
absent from `PSI_Undrained_Model`, whose unguarded `math.sqrt` returns a
value only when the radicand is nonnegative; for `0 ≤ Z ≤ Dop` the radicand
is nonnegative and the unguarded computation returns exactly the guarded
`B`. -/
theorem c8_radicand_guard_amended (dop z : ℝ) :
    (dop * z - z ^ 2 ≤ 0 → RunPSI.Bcore dop z = 0) ∧
    (0 ≤ z → z ≤ dop → PSIModel.b_widthE dop z = some (RunPSI.Bcore dop z)) := by
  constructor
  · intro h
    simp only [RunPSI.Bcore, if_neg (not_lt.mpr h)]
  · intro hz hzd
    have hr : 0 ≤ dop * z - z ^ 2 := by nlinarith
    have hb : RunPSI.Bcore dop z = 2 * Real.sqrt (dop * z - z ^ 2) := by
      rcases eq_or_lt_of_le hr with h0 | hpos
      · rw [RunPSI.Bcore, if_neg (not_lt.mpr h0.ge), ← h0, Real.sqrt_zero, mul_zero]
      · rw [RunPSI.Bcore, if_pos hpos]
    rw [hb, PSIModel.b_widthE, pySqrt, if_pos hr]
    rfl

/-- Claim C8, witness: at `Dop = 1`, `Z = 0` the guarded backend yields
`B = 0` and the unguarded backend returns normally with the same value. -/
theorem c8_radicand_guard_witness :
    RunPSI.Bcore 1 0 = 0 ∧ PSIModel.b_widthE 1 0 = some (RunPSI.Bcore 1 0) :=
  ⟨(c8_radicand_guard_amended 1 0).1 (by norm_num),
   (c8_radicand_guard_amended 1 0).2 le_rfl (by norm_num)⟩

/-- Claim C5, counterexample: the two surface-laid backends do NOT return
equal values for every corresponding output on every identical input record:
at `iDiff` (`Su = 5`, `Su_passive = 7`, `Z = rate = 1`, `gamma_bulk = 16`)
their `Fl_remain` outputs are `12.975` and `16.975` respectively, because
`PSI_Undrained_Model` computes the passive term from `Su`. -/
theorem c5_backend_equivalence_cex :
    PSIModel.fl_remain iDiff ≠ RunPSI.Fl_remain iDiff := by
  simp only [PSIModel.fl_remain, PSIModel.sub_wt, RunPSI.Fl_remain, RunPSI.Sub_wt, iDiff]
  norm_num

/-- Claim C5, amended: for every identical input record with `Dop > 0`,
`Z ≥ 0` and `Su_passive = Su`, the two surface-laid backends return equal
values for every corresponding computed output: `Wp`, `Wpf`, `V`, `Abm`,
`Qv`, `zeta`, `Fl_remain`, and the per-(surface, estimate) axial/lateral
breakout and residual forces and displacements (as computed, i.e. before the
2-decimal display rounding `PSI_Undrained_Model.run_simulation` applies when
tabulating); when `Su_passive ≠ Su` the `Fl_remain`-dependent outputs
differ. -/
theorem c5_backend_equivalence (i : SLIn) (s : Surface) (e : Est)
    (hdop : 0 < i.dop) (hz : 0 ≤ i.z) (hsu : i.su_passive = i.su) :
    PSIModel.wp i = RunPSI.Wp i ∧
    PSIModel.wpf i = RunPSI.Wpf i ∧
    PSIModel.v i = RunPSI.V i ∧
    PSIModel.abm i = RunPSI.Abm i ∧
    PSIModel.qv i = RunPSI.Qv i ∧
    PSIModel.zeta i = RunPSI.zeta i ∧
    PSIModel.fl_remain i = RunPSI.Fl_remain i ∧
    PSIModel.abrk i s e = RunPSI.Abrk i s e ∧
    PSIModel.ares i s e = RunPSI.Ares i s e ∧
    PSIModel.lbrk i s e = RunPSI.Lbrk i s e ∧
    PSIModel.lres i s e = RunPSI.Lres i s e ∧
    PSIModel.xb i s e = RunPSI.Xb i s e ∧
    PSIModel.xr i s e = RunPSI.Xr i s e ∧
    PSIModel.yb i s e = RunPSI.Yb i s e ∧
    PSIModel.yr i s e = RunPSI.Yr i s e := by
  have hzeta : PSIModel.zeta i = RunPSI.zeta i := zetaCore_eq i.dop i.z
  have hfl : PSIModel.fl_remain i = RunPSI.Fl_remain i := by
    rw [PSIModel.fl_remain, RunPSI.Fl_remain, hsu]
    rfl
  have habrk : PSIModel.abrk i s e = RunPSI.Abrk i s e := by
    rw [PSIModel.abrk, RunPSI.Abrk, hzeta]
    rfl
  have hlres : PSIModel.lres i s e = RunPSI.Lres i s e := by
    have hraw : PSIModel.base_lres i = RunPSI.Lres_raw i := by
      rw [RunPSI.Lres_raw, if_pos hdop]
      rfl
    cases e <;> simp only [PSIModel.lres, RunPSI.Lres, hraw]
  refine ⟨rfl, rfl, rfl, abm_eq i hdop hz, qv_eq i hdop hz, hzeta, hfl, habrk, ?_, ?_,
    hlres, ?_, ?_, ?_, ?_⟩
  · rw [PSIModel.ares, RunPSI.Ares, habrk]
  · rw [PSIModel.lbrk, RunPSI.Lbrk, hfl]
    rfl
  · cases e <;> rfl
  · cases e <;> rfl
  · cases e <;> rfl
  · cases e <;> rfl

/-- Claim C5, witness: at the §8 scenario record (`Su_passive = Su = 5`,
`Dop = 0.3239 > 0`, `Z = 0.05 ≥ 0`) the two backends agree on the effective
vertical force, the penetrated area and the lateral passive term. -/
theorem c5_backend_equivalence_witness :
    PSIModel.v iScn = RunPSI.V iScn ∧
    PSIModel.abm iScn = RunPSI.Abm iScn ∧
    PSIModel.fl_remain iScn = RunPSI.Fl_remain iScn := by
  have h := c5_backend_equivalence iScn Surface.concrete Est.best
    (by norm_num [iScn]) (by norm_num [iScn]) rfl
  exact ⟨h.2.2.1, h.2.2.2.1, h.2.2.2.2.2.2.1⟩

/-- The wedging expression is differentiable away from denominator zeros,
with the quotient-rule derivative. -/
theorem zetaFun_hasDerivAt (x : ℝ) (hD : x + Real.sin x * Real.cos x ≠ 0) :
    HasDerivAt zetaFun
      ((2 * Real.cos x * (x + Real.sin x * Real.cos x) -
        2 * Real.sin x * (1 + (Real.cos x * Real.cos x + Real.sin x * -Real.sin x))) /
        (x + Real.sin x * Real.cos x) ^ 2) x := by
  have hs := Real.hasDerivAt_sin x
  have hc := Real.hasDerivAt_cos x
  have hN : HasDerivAt (fun b => 2 * Real.sin b) (2 * Real.cos x) x := by
    simpa [mul_comm] using (Real.hasDerivAt_sin x).const_mul 2
  have hden : HasDerivAt (fun b => b + Real.sin b * Real.cos b)
      (1 + (Real.cos x * Real.cos x + Real.sin x * -Real.sin x)) x :=
    (hasDerivAt_id x).add (hs.mul hc)
  exact hN.div hden hD

/-- On the open upper quarter-arc `(pi/2, pi)` the wedging expression has
negative derivative. -/
theorem zetaFun_deriv_neg {x : ℝ} (hx : Real.pi / 2 < x) (hxpi : x < Real.pi) :
    deriv zetaFun x < 0 := by
  have hx0 : 0 < x := lt_trans (by positivity) hx
  have hD : 0 < x + Real.sin x * Real.cos x := denomAux_pos x hx0
  rw [(zetaFun_hasDerivAt x hD.ne').deriv]
  have hc : Real.cos x < 0 :=
    Real.cos_neg_of_pi_div_two_lt_of_lt hx (by linarith [Real.pi_pos])
  have hs : 0 ≤ Real.sin x := Real.sin_nonneg_of_nonneg_of_le_pi hx0.le hxpi.le
  have hs1 : Real.sin x ≤ 1 := Real.sin_le_one x
  apply div_neg_of_neg_of_pos
  · nlinarith [mul_pos (neg_pos.mpr hc) hx0, mul_nonneg hs (sub_nonneg.mpr hs1),
      mul_nonneg (mul_nonneg hs hs) (sub_nonneg.mpr hs1)]
  · exact pow_pos hD 2

/-- The wedging expression is strictly decreasing on `[pi/2, pi]`. -/
theorem zetaFun_strictAntiOn :
    StrictAntiOn zetaFun (Set.Icc (Real.pi / 2) Real.pi) := by
  apply strictAntiOn_of_deriv_neg (convex_Icc _ _)
  · apply ContinuousOn.div
    · exact (continuous_const.mul Real.continuous_sin).continuousOn
    · exact (continuous_id.add (Real.continuous_sin.mul Real.continuous_cos)).continuousOn
    · intro x hx
      exact (denomAux_pos x (lt_of_lt_of_le (by positivity) hx.1)).ne'
  · intro x hx
    rw [interior_Icc] at hx
    exact zetaFun_deriv_neg hx.1 hx.2

/-- For `Dop > 0`, `beta` is a strictly increasing function of the embedment
on `[0, Dop]`. -/
theorem betaCore_strictMono {dop z1 z2 : ℝ} (hdop : 0 < dop)
    (h0 : 0 ≤ z1) (h12 : z1 < z2) (h2 : z2 ≤ dop) :
    betaCore dop z1 < betaCore dop z2 := by
  have hd2 : 0 < dop / 2 := by linarith
  have ht21 : 1 - z2 / (dop / 2) < 1 - z1 / (dop / 2) := by
    have h := (div_lt_div_right hd2).mpr h12
    linarith
  have ht1le : 1 - z1 / (dop / 2) ≤ 1 := by
    have : 0 ≤ z1 / (dop / 2) := div_nonneg h0 hd2.le
    linarith
  have ht2ge : -1 ≤ 1 - z2 / (dop / 2) := by
    have : z2 / (dop / 2) ≤ 2 := by
      rw [div_le_iff hd2]
      linarith
    linarith
  have hmem2 : (1 - z2 / (dop / 2)) ∈ Set.Icc (-1 : ℝ) 1 := ⟨ht2ge, by linarith⟩
  have hmem1 : (1 - z1 / (dop / 2)) ∈ Set.Icc (-1 : ℝ) 1 := ⟨by linarith, ht1le⟩
  have harc : Real.arccos (1 - z1 / (dop / 2)) < Real.arccos (1 - z2 / (dop / 2)) :=
    Real.strictAntiOn_arccos hmem2 hmem1 ht21
  rw [betaCore, betaCore, clampUnit_eq_self hmem1.1 hmem1.2,
    clampUnit_eq_self hmem2.1 hmem2.2]
  exact harc

/-- For `Dop/2 ≤ Z ≤ Dop` (with `Dop > 0`), `beta` lies in `[pi/2, pi]`. -/
theorem betaCore_mem_upper {dop z : ℝ} (hdop : 0 < dop)
    (hz1 : dop / 2 ≤ z) (hz2 : z ≤ dop) :
    betaCore dop z ∈ Set.Icc (Real.pi / 2) Real.pi := by
  constructor
  · have hd2 : 0 < dop / 2 := by linarith
    have ht : 1 - z / (dop / 2) ≤ 0 := by
      have : 1 ≤ z / (dop / 2) := (one_le_div hd2).mpr hz1
      linarith
    have hcl : clampUnit (1 - z / (dop / 2)) ≤ 0 := clampUnit_nonpos ht
    rw [betaCore, Real.arccos_eq_pi_div_two_sub_arcsin]
    have := Real.arcsin_nonpos.mpr hcl
    linarith
  · exact betaCore_le_pi dop z

/-- Off the `beta = 0` guard, the `psi_backend.py` wedging factor is the
wedging expression evaluated at `beta`. -/
theorem zetaPSICore_eq_zetaFun {dop z : ℝ} (hb : betaCore dop z ≠ 0) :
    zetaPSICore dop z = zetaFun (betaCore dop z) := by
  rw [zetaPSICore, if_neg hb, zetaFun, zetaDenom]

/-- Claim C3, counterexample: with `Dop = 1`, take `Z1 = 0 < Z2 = 1/2` (both
in `[0, Dop]`): zeta at `Z1` is `1` while zeta at `Z2` is `4/pi > 1`, so
zeta is not monotonically decreasing in the embedment. -/
theorem c3_zeta_monotone_cex :
    (0 : ℝ) < 1 / 2 ∧ ((1 : ℝ) / 2) ≤ 1 ∧ zetaPSICore 1 0 < zetaPSICore 1 (1 / 2) := by
  refine ⟨by norm_num, by norm_num, ?_⟩
  rw [zetaPSICore_zero_emb, zetaPSICore_half (one_ne_zero : (1 : ℝ) ≠ 0)]
  exact four_div_pi_gt_one

/-- Claim C3, amended: for every `Dop > 0`, zeta equals `1` at `Z = 0`, rises
to `4/pi > 1` at `Z = Dop/2`, and is strictly monotonically decreasing only
on the upper half of the embedment range: for all
`Dop/2 ≤ Z1 < Z2 ≤ Dop`, `zeta(Z2) < zeta(Z1)`, reaching `0` at `Z = Dop`. -/
theorem c3_zeta_shape_amended (dop : ℝ) (hdop : 0 < dop) :
    zetaPSICore dop 0 = 1 ∧
    zetaPSICore dop (dop / 2) = 4 / Real.pi ∧
    zetaPSICore dop dop = 0 ∧
    ∀ z1 z2 : ℝ, dop / 2 ≤ z1 → z1 < z2 → z2 ≤ dop →
      zetaPSICore dop z2 < zetaPSICore dop z1 := by
  refine ⟨zetaPSICore_zero_emb dop, zetaPSICore_half hdop.ne', zetaPSICore_full hdop.ne', ?_⟩
  intro z1 z2 hz1 h12 hz2
  have hm1 : betaCore dop z1 ∈ Set.Icc (Real.pi / 2) Real.pi :=
    betaCore_mem_upper hdop hz1 (le_trans h12.le hz2)
  have hm2 : betaCore dop z2 ∈ Set.Icc (Real.pi / 2) Real.pi :=
    betaCore_mem_upper hdop (le_trans hz1 h12.le) hz2
  have hbb : betaCore dop z1 < betaCore dop z2 :=
    betaCore_strictMono hdop (by linarith) h12 hz2
  have hne1 : betaCore dop z1 ≠ 0 := (lt_of_lt_of_le (by positivity) hm1.1).ne'
  have hne2 : betaCore dop z2 ≠ 0 := (lt_of_lt_of_le (by positivity) hm2.1).ne'
  rw [zetaPSICore_eq_zetaFun hne1, zetaPSICore_eq_zetaFun hne2]
  exact zetaFun_strictAntiOn hm1 hm2 hbb

/-- Claim C3, witness: the amended shape at `Dop = 1`: zeta is `1` at zero
embedment and strictly smaller at `Z = 1` than at `Z = 1/2`. -/
theorem c3_zeta_shape_witness :
    zetaPSICore 1 0 = 1 ∧ zetaPSICore 1 1 < zetaPSICore 1 (1 / 2) := by
  have h := c3_zeta_shape_amended 1 (by norm_num)
  exact ⟨h.1, h.2.2.2 (1 / 2) 1 le_rfl (by norm_num) le_rfl⟩

end
